import Mathlib

/-!
Verification of the e-commerce dashboard data pipeline
(`src/main.py` and `src/mainCSVFile.py`).

The two scripts are shallowly embedded here: pandas DataFrames become
`List` of record structures, floats become `ℚ`, datetimes become a
year/month/day triple, Python `None`/`NaN`/`NaT` markers become `Option`,
and sources of randomness or external library behaviour (`random`,
`chardet`, codec decoding) become explicitly injected functions.
-/

namespace ECom

/-! ### Decimal digits and zero padding (Python `f"P{i+1:05d}"`) -/

/-- The decimal digit character for `d < 10` (as produced by Python's
`%d` formatting; the catch-all branch is unreachable for `d < 10`). -/
def digitChar (d : Nat) : Char :=
  match d with
  | 0 => '0' | 1 => '1' | 2 => '2' | 3 => '3' | 4 => '4'
  | 5 => '5' | 6 => '6' | 7 => '7' | 8 => '8' | _ => '9'

/-- Most-significant-first decimal digits of `n`, as Python's `"%d" % n`. -/
def natDigits (n : Nat) : List Char :=
  if h : n < 10 then [digitChar n]
  else natDigits (n / 10) ++ [digitChar (n % 10)]
decreasing_by exact Nat.div_lt_self (by omega) (by omega)

/-- Left-pad a digit string with `'0'` to a minimum width of 5,
as Python's `"%05d"` field width. -/
def pad5 (l : List Char) : List Char :=
  List.replicate (5 - l.length) '0' ++ l

/-- Numeric value of a digit character. -/
def digitVal (c : Char) : Nat := c.toNat - 48

/-- Read a digit string back as a number (used to show the padded ids
are injective). -/
def decodeDigits (l : List Char) : Nat :=
  l.foldl (fun a c => 10 * a + digitVal c) 0

theorem digitVal_digitChar {d : Nat} (h : d < 10) :
    digitVal (digitChar d) = d := by
  interval_cases d <;> rfl

theorem decodeDigits_append_digit (l : List Char) (c : Char) :
    decodeDigits (l ++ [c]) = 10 * decodeDigits l + digitVal c := by
  simp [decodeDigits, List.foldl_append]

theorem decodeDigits_natDigits : ∀ n : Nat, decodeDigits (natDigits n) = n := by
  intro n
  induction n using Nat.strong_induction_on with
  | _ n ih =>
    rw [natDigits]
    split
    · next h =>
      simp [decodeDigits, digitVal_digitChar h]
    · next h =>
      rw [decodeDigits_append_digit, ih (n / 10) (Nat.div_lt_self (by omega) (by omega)),
        digitVal_digitChar (Nat.mod_lt _ (by omega))]
      omega

theorem decodeDigits_cons_zero (l : List Char) :
    decodeDigits ('0' :: l) = decodeDigits l := rfl

theorem decodeDigits_replicate_zero (k : Nat) (l : List Char) :
    decodeDigits (List.replicate k '0' ++ l) = decodeDigits l := by
  induction k with
  | zero => rfl
  | succ k ih =>
    rw [List.replicate_succ, List.cons_append, decodeDigits_cons_zero, ih]

theorem decodeDigits_pad5 (l : List Char) :
    decodeDigits (pad5 l) = decodeDigits l :=
  decodeDigits_replicate_zero _ l

/-! ### Schema and vocabulary (`src/main.py` constants) -/

def BRANDS : List String :=
  ["Zara", "H&M", "Uniqlo", "Nike", "Adidas", "Levi's", "Gucci", "Prada",
   "Forever21", "Puma"]

def CATEGORIES : List String :=
  ["T-Shirts", "Jeans", "Dresses", "Jackets", "Shoes", "Accessories",
   "Skirts", "Sweaters", "Shorts", "Bags"]

def GENDERS : List String := ["Men", "Women", "Unisex", "Kids"]

def COLORS : List String :=
  ["Red", "Blue", "Black", "White", "Green", "Yellow", "Pink", "Purple",
   "Gray", "Brown"]

def SIZES : List String := ["XS", "S", "M", "L", "XL", "XXL"]

def STYLES : List String := ["Classic", "Limited", "Premium", "Casual", "Sport"]

/-- A calendar date, the embedding of a Python `date`/`datetime` value. -/
structure DateYMD where
  year : Int
  month : Int
  day : Int
deriving DecidableEq, Repr

/-- The year-month period of a date, the embedding of pandas
`.dt.to_period("M")`: two dates map to the same period iff they share
year and month, and the period order is chronological. -/
def periodM (d : DateYMD) : Int := d.year * 12 + d.month

/-- One synthetic product row of `src/main.py`. -/
structure Product where
  product_id : String
  name : String
  brand : String
  category : String
  gender : String
  color : String
  size : String
  price : ℚ
  stock : Nat
  rating : ℚ
  date_added : DateYMD
deriving DecidableEq, Repr

def dfltProduct : Product :=
  { product_id := "", name := "", brand := "", category := "", gender := "",
    color := "", size := "", price := 0, stock := 0, rating := 0,
    date_added := ⟨0, 0, 0⟩ }

/-! ### Synthetic dataset generator (`generate_dummy_ecommerce_data`) -/

/-- The unseeded pseudo-random source of `src/main.py`, made an explicit
injected dependency: for each row index it yields the raw draws consumed
by `random.choice`, `random.uniform`, `random.randint` and
`fake.date_between`. -/
structure Rng where
  brandIdx : Nat → Nat
  categoryIdx : Nat → Nat
  genderIdx : Nat → Nat
  colorIdx : Nat → Nat
  sizeIdx : Nat → Nat
  styleIdx : Nat → Nat
  priceDraw : Nat → ℚ
  stockDraw : Nat → Nat
  ratingDraw : Nat → ℚ
  dateDraw : Nat → DateYMD

/-- `random.choice(xs)` driven by a raw draw `k`: an index into the
(nonempty) list. -/
def randChoice (xs : List String) (k : Nat) : String :=
  xs.getD (k % xs.length) ""

/-- `product_id` of the row at index `i`: Python `f"P{i+1:05d}"`. -/
def productId (i : Nat) : String :=
  "P" ++ String.mk (pad5 (natDigits (i + 1)))

/-- The loop body of `generate_dummy_ecommerce_data` for index `i`. -/
def mkProduct (g : Rng) (i : Nat) : Product :=
  let brand := randChoice BRANDS (g.brandIdx i)
  let category := randChoice CATEGORIES (g.categoryIdx i)
  { product_id := productId i
    name := brand ++ " " ++ category ++ " " ++ randChoice STYLES (g.styleIdx i)
    brand := brand
    category := category
    gender := randChoice GENDERS (g.genderIdx i)
    color := randChoice COLORS (g.colorIdx i)
    size := randChoice SIZES (g.sizeIdx i)
    price := g.priceDraw i
    stock := g.stockDraw i % 101
    rating := g.ratingDraw i
    date_added := g.dateDraw i }

/-- `generate_dummy_ecommerce_data(n_rows)` for a natural row count:
`for i in range(n_rows): data.append(...)`. -/
def generate_dummy_ecommerce_data (g : Rng) (n : Nat) : List Product :=
  (List.range n).map (mkProduct g)

/-- The same call with a Python `int` argument: `range(n)` is empty for
every `n ≤ 0` (`Int.toNat` sends negatives to `0`). -/
def generateRows (g : Rng) (n : Int) : List Product :=
  generate_dummy_ecommerce_data g n.toNat

/-! #### Generator lemmas -/

theorem productId_injective {i j : Nat} (h : productId i = productId j) :
    i = j := by
  have hd : ('P' :: pad5 (natDigits (i + 1))) = ('P' :: pad5 (natDigits (j + 1))) := by
    have := congrArg String.data h
    simpa [productId] using this
  have hp : pad5 (natDigits (i + 1)) = pad5 (natDigits (j + 1)) :=
    (List.cons.inj hd).2
  have := congrArg decodeDigits hp
  rw [decodeDigits_pad5, decodeDigits_pad5, decodeDigits_natDigits,
    decodeDigits_natDigits] at this
  omega

theorem randChoice_mem (xs : List String) (k : Nat) (h : xs ≠ []) :
    randChoice xs k ∈ xs := by
  have hlen : 0 < xs.length := List.length_pos.2 h
  have hk : k % xs.length < xs.length := Nat.mod_lt _ hlen
  rw [randChoice, List.getD_eq_getElem?_getD, List.getElem?_eq_getElem hk]
  exact List.getElem_mem hk

theorem generate_getD (g : Rng) {n i : Nat} (h : i < n) :
    (generate_dummy_ecommerce_data g n).getD i dfltProduct = mkProduct g i := by
  rw [generate_dummy_ecommerce_data, List.getD_eq_getElem?_getD,
    List.getElem?_map, List.getElem?_range h]
  rfl

theorem generate_length (g : Rng) (n : Nat) :
    (generate_dummy_ecommerce_data g n).length = n := by
  simp [generate_dummy_ecommerce_data]

/-! ### Filter engine, synthetic path (`src/main.py` `df_filtered`) -/

/-- The conjunctive sidebar filter of `src/main.py`:
`df[(df.brand.isin(bf)) & (df.category.isin(cf)) & (df.gender.isin(gf)) & (df.color.isin(colf))]`. -/
def df_filtered (df : List Product)
    (brand_filter category_filter gender_filter color_filter : List String) :
    List Product :=
  df.filter (fun r =>
    decide (r.brand ∈ brand_filter) && decide (r.category ∈ category_filter) &&
    decide (r.gender ∈ gender_filter) && decide (r.color ∈ color_filter))

/-! ### Aggregation layer (pandas `groupby` with default ascending key
sort and `dropna=True`, `Series.mean`) -/

/-- The sorted distinct group keys of a pandas `groupby`:
null keys dropped, duplicates removed, keys in ascending order. -/
def sortKeys {K : Type} [LinearOrder K] [DecidableEq K] (l : List K) : List K :=
  List.insertionSort (· ≤ ·) l.dedup

/-- `df.groupby(key)[valcol].sum()`: one `(key, sum)` row per distinct
non-null key, keys ascending. -/
def groupBySum {α K : Type} [LinearOrder K] [DecidableEq K]
    (key : α → Option K) (val : α → ℚ) (df : List α) : List (K × ℚ) :=
  (sortKeys (df.filterMap key)).map
    (fun k => (k, ((df.filter (fun r => decide (key r = some k))).map val).sum))

/-- `df.groupby(key).size()`: one `(key, count)` row per distinct
non-null key, keys ascending. -/
def groupBySize {α K : Type} [LinearOrder K] [DecidableEq K]
    (key : α → Option K) (df : List α) : List (K × Nat) :=
  (sortKeys (df.filterMap key)).map
    (fun k => (k, (df.filter (fun r => decide (key r = some k))).length))

/-- pandas `Series.mean`: `NaN` (here `none`) over an empty series,
otherwise the arithmetic mean. -/
def seriesMean (l : List ℚ) : Option ℚ :=
  if l.length = 0 then none else some (l.sum / l.length)

/-- `src/main.py` monthly aggregation:
`df_filtered.groupby(df_filtered.date_added.dt.to_period("M")).size()`. -/
def df_time (df : List Product) : List (Int × Nat) :=
  groupBySize (fun r => some (periodM r.date_added)) df

/-! ### Dataset cache/loader (`src/main.py` `load_data` under
`@st.cache_data`) -/

/-- The observable state `load_data` interacts with: the parquet file's
contents (if the file exists), the `st.cache_data` memo entry, and event
counters for file reads, file writes and generator invocations. -/
structure LoaderState where
  parquetFile : Option (List Product)
  memoLoad : Option (List Product)
  reads : Nat
  writes : Nat
  gens : Nat
deriving DecidableEq, Repr

/-- `load_data` of `src/main.py`: return the memoized result if the
memo is populated; otherwise read the parquet file if it exists, else
generate the data and write it to the parquet file; either way populate
the memo. `gen` is the table the generator would produce on this run. -/
def load_data (gen : List Product) (s : LoaderState) :
    List Product × LoaderState :=
  match s.memoLoad with
  | some df => (df, s)
  | none =>
    match s.parquetFile with
    | some df => (df, { s with memoLoad := some df, reads := s.reads + 1 })
    | none =>
      (gen, { parquetFile := some gen, memoLoad := some gen,
              reads := s.reads, writes := s.writes + 1, gens := s.gens + 1 })

/-! ### CSV ingestion path (`src/mainCSVFile.py` `load_data`) -/

/-- One row of the sales CSV after ingestion of the raw columns
(before the derived `TotalSales` column). Nullable cells are `Option`;
`InvoiceDate` is `none` where `pd.to_datetime(..., errors="coerce")`
produced `NaT`. -/
structure RawSalesRow where
  invoiceNo : Option String
  customerId : Option String
  country : Option String
  description : Option String
  quantity : Int
  unitPrice : ℚ
  invoiceDate : Option DateYMD
deriving DecidableEq, Repr

/-- A sales row with the derived `TotalSales` column. -/
structure SalesRow where
  raw : RawSalesRow
  totalSales : ℚ
deriving DecidableEq, Repr

/-- `df["TotalSales"] = df["Quantity"] * df["UnitPrice"]` (the branch of
`load_data` where both columns are present). -/
def addTotalSales (df : List RawSalesRow) : List SalesRow :=
  df.map (fun r => { raw := r, totalSales := (r.quantity : ℚ) * r.unitPrice })

/-- `latin-1` decoding: every byte maps to the character with that code
point, so decoding never fails and consumes every byte. -/
def latin1Decode (bytes : List Nat) : List Char :=
  bytes.map (fun b => Char.ofNat (b % 256))

/-- `chardet.detect(f.read(100000))["encoding"] or "utf-8"`: detect from
the first 100,000 bytes, fall back to `"utf-8"` when the statistical
detector (the injected `detect`) is inconclusive. -/
def detectedEncoding (detect : List Nat → Option String) (bytes : List Nat) :
    String :=
  (detect (bytes.take 100000)).getD "utf-8"

/-- The `try pd.read_csv(encoding) except UnicodeDecodeError:
pd.read_csv(encoding="latin-1")` step. `decodeAs` is the injected codec
table (`none` = the codec raised); the latin-1 retry is total. -/
def read_csv_fallback (decodeAs : String → List Nat → Option (List Char))
    (parse : List Char → List RawSalesRow) (enc : String) (bytes : List Nat) :
    Except String (List RawSalesRow) :=
  match decodeAs enc bytes with
  | some txt => .ok (parse txt)
  | none => .ok (parse (latin1Decode bytes))

/-- `load_data` of `src/mainCSVFile.py`: a missing file
(`not os.path.exists(CSV_PATH)`) is a fatal `st.error` + `st.stop()`
before anything is parsed or rendered; otherwise detect the encoding and
read with the latin-1 fallback. `fsFile` is the contents of `data.csv`
(`none` = file absent). -/
def load_data_csv (fsFile : Option (List Nat))
    (detect : List Nat → Option String)
    (decodeAs : String → List Nat → Option (List Char))
    (parse : List Char → List RawSalesRow) :
    Except String (List RawSalesRow) :=
  match fsFile with
  | none => .error "CSV file not found at: data.csv"
  | some bytes =>
    read_csv_fallback decodeAs parse (detectedEncoding detect bytes) bytes

/-! ### Sidebar filters, CSV path (`src/mainCSVFile.py` section 3) -/

/-- Lexicographic order on dates, the embedding of pandas datetime
comparison; a null date (`NaT`) compares false against everything, as in
pandas. -/
def dateLeB (a b : DateYMD) : Bool :=
  decide (a.year < b.year) ||
  (decide (a.year = b.year) &&
    (decide (a.month < b.month) ||
      (decide (a.month = b.month) && decide (a.day ≤ b.day))))

/-- The three sequential sidebar filters of `src/mainCSVFile.py`:
country `isin`, inclusive date range, inclusive sales range. A filter
whose selection is `none` (its column is absent, so the corresponding
`if ... in df.columns` block does not run) imposes no constraint. Rows
whose cell is null never match an active filter (pandas `isin` and
comparisons are false on `NaN`/`NaT`). -/
def csvFiltered (df : List SalesRow)
    (countrySel : Option (List String))
    (dateSel : Option (DateYMD × DateYMD))
    (salesSel : Option (ℚ × ℚ)) : List SalesRow :=
  let df1 := match countrySel with
    | none => df
    | some sel => df.filter (fun r =>
        match r.raw.country with
        | some c => decide (c ∈ sel)
        | none => false)
  let df2 := match dateSel with
    | none => df1
    | some se => df1.filter (fun r =>
        match r.raw.invoiceDate with
        | some d => dateLeB se.1 d && dateLeB d se.2
        | none => false)
  match salesSel with
  | none => df2
  | some lohi => df2.filter (fun r =>
      decide (lohi.1 ≤ r.totalSales) && decide (r.totalSales ≤ lohi.2))

/-- `sorted(df["Country"].dropna().unique())` — the option list of the
country multiselect. -/
def countriesSorted (df : List SalesRow) : List String :=
  sortKeys (df.filterMap (fun r => r.raw.country))

/-- The multiselect default `countries[:5]`: the first five options. -/
def defaultCountries (df : List SalesRow) : List String :=
  (countriesSorted df).take 5

/-- The table immediately after the country filter when the user has not
touched the multiselect: `df[df["Country"].isin(countries[:5])]`. -/
def defaultCountryView (df : List SalesRow) : List SalesRow :=
  df.filter (fun r =>
    match r.raw.country with
    | some c => decide (c ∈ defaultCountries df)
    | none => false)

/-- `src/mainCSVFile.py` monthly aggregation:
`df.groupby(df["InvoiceDate"].dt.to_period("M"))["TotalSales"].sum()`
(pandas drops `NaT` group keys). -/
def time_df (df : List SalesRow) : List (Int × ℚ) :=
  groupBySum (fun r => r.raw.invoiceDate.map periodM) (fun r => r.totalSales) df

/-- `df.groupby("Description")["TotalSales"].sum()` (first half of
`top_products`). -/
def salesByDescription (df : List SalesRow) : List (String × ℚ) :=
  groupBySum (fun r => r.raw.description) (fun r => r.totalSales) df

instance decRelSndGe : DecidableRel
    (fun a b : (String × ℚ) => b.2 ≤ a.2) :=
  fun a b => inferInstanceAs (Decidable (b.2 ≤ a.2))

/-- `top_products`: group by `Description`, sum `TotalSales`, sort by the
sum descending, keep the first 10 rows. -/
def top_products (df : List SalesRow) : List (String × ℚ) :=
  (List.insertionSort (fun a b => b.2 ≤ a.2) (salesByDescription df)).take 10

/-! ### Group-key ordering lemmas -/

theorem sortKeys_sorted {K : Type} [LinearOrder K] [DecidableEq K] (l : List K) :
    List.Sorted (· ≤ ·) (sortKeys l) :=
  List.sorted_insertionSort _ _

theorem sortKeys_nodup {K : Type} [LinearOrder K] [DecidableEq K] (l : List K) :
    (sortKeys l).Nodup :=
  ((List.perm_insertionSort _ _).nodup_iff).2 (List.nodup_dedup l)

theorem sortKeys_sorted_lt {K : Type} [LinearOrder K] [DecidableEq K] (l : List K) :
    List.Sorted (· < ·) (sortKeys l) :=
  (sortKeys_sorted l).lt_of_le (sortKeys_nodup l)

theorem mem_sortKeys {K : Type} [LinearOrder K] [DecidableEq K] {a : K} {l : List K} :
    a ∈ sortKeys l ↔ a ∈ l := by
  rw [sortKeys, (List.perm_insertionSort _ _).mem_iff, List.mem_dedup]

theorem groupBySum_pairwise {α K : Type} [LinearOrder K] [DecidableEq K]
    (key : α → Option K) (val : α → ℚ) (df : List α) :
    List.Pairwise (fun a b => a.1 < b.1) (groupBySum key val df) := by
  rw [groupBySum]
  exact List.pairwise_map.2 (by simpa using sortKeys_sorted_lt (df.filterMap key))

theorem groupBySize_pairwise {α K : Type} [LinearOrder K] [DecidableEq K]
    (key : α → Option K) (df : List α) :
    List.Pairwise (fun a b => a.1 < b.1) (groupBySize key df) := by
  rw [groupBySize]
  exact List.pairwise_map.2 (by simpa using sortKeys_sorted_lt (df.filterMap key))

/-! ## Claim theorems -/

/-- **C1**: a row appears in the filtered result iff, for each column
present in the selection, the row's value is in the selected set
(categorical) or within the inclusive bounds (range); columns absent
from the selection (`none`) impose no constraint, and an empty allowed
set for a categorical column yields zero rows. Stated for the
`src/main.py` four-way categorical filter and for the
`src/mainCSVFile.py` country/date/sales filter chain. -/
theorem filter_engine_correct :
    (∀ (df : List Product) (bf cf gf colf : List String) (r : Product),
      r ∈ df_filtered df bf cf gf colf ↔
        r ∈ df ∧ r.brand ∈ bf ∧ r.category ∈ cf ∧ r.gender ∈ gf ∧
          r.color ∈ colf) ∧
    (∀ (df : List Product) (bf cf gf colf : List String),
      bf = [] ∨ cf = [] ∨ gf = [] ∨ colf = [] →
        df_filtered df bf cf gf colf = []) ∧
    (∀ (df : List SalesRow) (cs : Option (List String))
      (ds : Option (DateYMD × DateYMD)) (ss : Option (ℚ × ℚ)) (r : SalesRow),
      r ∈ csvFiltered df cs ds ss ↔
        r ∈ df ∧
        (∀ sel, cs = some sel → ∃ c, r.raw.country = some c ∧ c ∈ sel) ∧
        (∀ se, ds = some se → ∃ d, r.raw.invoiceDate = some d ∧
          dateLeB se.1 d = true ∧ dateLeB d se.2 = true) ∧
        (∀ lohi, ss = some lohi →
          lohi.1 ≤ r.totalSales ∧ r.totalSales ≤ lohi.2)) ∧
    (∀ (df : List SalesRow) (ds : Option (DateYMD × DateYMD))
      (ss : Option (ℚ × ℚ)), csvFiltered df (some []) ds ss = []) := by
  refine ⟨?_, ?_, ?_, ?_⟩
  · intro df bf cf gf colf r
    simp [df_filtered, List.mem_filter, and_assoc]
  · intro df bf cf gf colf h
    rcases h with rfl | rfl | rfl | rfl <;> simp [df_filtered]
  · intro df cs ds ss r
    obtain ⟨⟨inv, cust, ctry, desc, q, u, dt⟩, ts⟩ := r
    cases cs <;> cases ds <;> cases ss <;> cases ctry <;> cases dt <;>
      simp [csvFiltered, List.mem_filter, and_assoc] <;> tauto
  · intro df ds ss
    have hf : (fun r : SalesRow =>
        match r.raw.country with
        | some c => decide (c ∈ ([] : List String))
        | none => false) = fun _ => false := by
      funext r; cases r.raw.country <;> simp
    have h0 : (df.filter fun r : SalesRow =>
        match r.raw.country with
        | some c => decide (c ∈ ([] : List String))
        | none => false) = [] := by
      rw [hf, List.filter_false]
    cases ds <;> cases ss <;> simp only [csvFiltered, h0] <;> simp

theorem filter_engine_correct_witness :
    df_filtered [dfltProduct] [] [] [] [] = [] ∧
    csvFiltered [] (some []) none none = [] :=
  ⟨filter_engine_correct.2.1 [dfltProduct] [] [] [] [] (Or.inl rfl),
   filter_engine_correct.2.2.2 [] none none⟩

/-- **C2**: for every `n ≥ 0` the generator returns exactly `n` records;
the `product_id` at index `i` is `"P"` followed by `i + 1` zero-padded
to width 5, hence all ids are distinct; and every brand, category,
gender, color and size lies in its declared enumeration — for every
realisation of the pseudo-random source. -/
theorem generator_contract (g : Rng) (n : Nat) :
    (generate_dummy_ecommerce_data g n).length = n ∧
    (∀ i, i < n →
      ((generate_dummy_ecommerce_data g n).getD i dfltProduct).product_id =
        "P" ++ String.mk (pad5 (natDigits (i + 1)))) ∧
    (∀ i j, i < n → j < n → i ≠ j →
      ((generate_dummy_ecommerce_data g n).getD i dfltProduct).product_id ≠
        ((generate_dummy_ecommerce_data g n).getD j dfltProduct).product_id) ∧
    (∀ i, i < n →
      ((generate_dummy_ecommerce_data g n).getD i dfltProduct).brand ∈ BRANDS ∧
      ((generate_dummy_ecommerce_data g n).getD i dfltProduct).category ∈
        CATEGORIES ∧
      ((generate_dummy_ecommerce_data g n).getD i dfltProduct).gender ∈
        GENDERS ∧
      ((generate_dummy_ecommerce_data g n).getD i dfltProduct).color ∈
        COLORS ∧
      ((generate_dummy_ecommerce_data g n).getD i dfltProduct).size ∈ SIZES) := by
  refine ⟨generate_length g n, ?_, ?_, ?_⟩
  · intro i hi
    rw [generate_getD g hi]
    rfl
  · intro i j hi hj hne heq
    rw [generate_getD g hi, generate_getD g hj] at heq
    have : productId i = productId j := by simpa [mkProduct] using heq
    exact hne (productId_injective this)
  · intro i hi
    rw [generate_getD g hi]
    refine ⟨?_, ?_, ?_, ?_, ?_⟩ <;>
      first
      | exact randChoice_mem BRANDS _ (by decide)
      | exact randChoice_mem CATEGORIES _ (by decide)
      | exact randChoice_mem GENDERS _ (by decide)
      | exact randChoice_mem COLORS _ (by decide)
      | exact randChoice_mem SIZES _ (by decide)

/-- A concrete all-zero realisation of the pseudo-random source. -/
def g0 : Rng :=
  { brandIdx := fun _ => 0, categoryIdx := fun _ => 0,
    genderIdx := fun _ => 0, colorIdx := fun _ => 0, sizeIdx := fun _ => 0,
    styleIdx := fun _ => 0, priceDraw := fun _ => 0, stockDraw := fun _ => 0,
    ratingDraw := fun _ => 0, dateDraw := fun _ => ⟨2024, 1, 1⟩ }

theorem generator_contract_witness :
    (generate_dummy_ecommerce_data g0 2).length = 2 ∧
    ((generate_dummy_ecommerce_data g0 2).getD 0 dfltProduct).product_id =
      "P" ++ String.mk (pad5 (natDigits 1)) ∧
    ((generate_dummy_ecommerce_data g0 2).getD 0 dfltProduct).product_id ≠
      ((generate_dummy_ecommerce_data g0 2).getD 1 dfltProduct).product_id ∧
    ((generate_dummy_ecommerce_data g0 2).getD 0 dfltProduct).brand ∈ BRANDS :=
  ⟨(generator_contract g0 2).1,
   (generator_contract g0 2).2.1 0 (by decide),
   (generator_contract g0 2).2.2.1 0 1 (by decide) (by decide) (by decide),
   ((generator_contract g0 2).2.2.2 0 (by decide)).1⟩

/-- **C3**: starting from a fresh process (empty memo, no writes yet),
two calls of `load_data` return the same table, the second call leaves
the state untouched (no re-read, no re-write, no re-generation), and at
most one write to the parquet path happens over the whole process
lifetime. -/
theorem load_data_idempotent (gen : List Product) (s : LoaderState)
    (hmemo : s.memoLoad = none) (hw : s.writes = 0) :
    (load_data gen (load_data gen s).2).1 = (load_data gen s).1 ∧
    (load_data gen (load_data gen s).2).2 = (load_data gen s).2 ∧
    (load_data gen s).2.writes ≤ 1 ∧
    (load_data gen (load_data gen s).2).2.writes ≤ 1 ∧
    (load_data gen (load_data gen s).2).2.reads = (load_data gen s).2.reads ∧
    (load_data gen (load_data gen s).2).2.gens = (load_data gen s).2.gens := by
  cases hp : s.parquetFile <;>
    simp [load_data, hmemo, hp, hw]

/-- A fresh loader process state: no parquet file on disk, empty memo,
no events yet. -/
def freshLoader : LoaderState :=
  { parquetFile := none, memoLoad := none, reads := 0, writes := 0, gens := 0 }

theorem load_data_idempotent_witness :
    (load_data [] (load_data [] freshLoader).2).1 =
      (load_data [] freshLoader).1 ∧
    (load_data [] (load_data [] freshLoader).2).2 =
      (load_data [] freshLoader).2 ∧
    (load_data [] freshLoader).2.writes ≤ 1 ∧
    (load_data [] (load_data [] freshLoader).2).2.writes ≤ 1 ∧
    (load_data [] (load_data [] freshLoader).2).2.reads =
      (load_data [] freshLoader).2.reads ∧
    (load_data [] (load_data [] freshLoader).2).2.gens =
      (load_data [] freshLoader).2.gens :=
  load_data_idempotent [] freshLoader rfl rfl

/-- **C4**: if the configured CSV file does not exist, ingestion is a
fatal, user-visible error (`st.error` + `st.stop()`) and no table is
ever produced — synthetic or partial data is never substituted. -/
theorem missing_csv_fatal (detect : List Nat → Option String)
    (decodeAs : String → List Nat → Option (List Char))
    (parse : List Char → List RawSalesRow) :
    load_data_csv none detect decodeAs parse =
      .error "CSV file not found at: data.csv" ∧
    ∀ df, load_data_csv none detect decodeAs parse ≠ .ok df := by
  refine ⟨rfl, ?_⟩
  intro df h
  simp [load_data_csv] at h

theorem missing_csv_fatal_witness :
    load_data_csv none (fun _ => none) (fun _ _ => none) (fun _ => []) =
      .error "CSV file not found at: data.csv" ∧
    load_data_csv none (fun _ => none) (fun _ _ => none) (fun _ => []) ≠
      .ok [] :=
  ⟨(missing_csv_fatal (fun _ => none) (fun _ _ => none) (fun _ => [])).1,
   (missing_csv_fatal (fun _ => none) (fun _ _ => none) (fun _ => [])).2 []⟩

/-- **C5**: the encoding is detected from the first 100,000 bytes, with
UTF-8 used when detection is inconclusive; if decoding under the
detected encoding raises a codec error the read is retried exactly once
with Latin-1, which decodes every byte (it is total and consumes all of
them), so the decode step as a whole never fails on a codec error. -/
theorem encoding_fallback (detect : List Nat → Option String)
    (decodeAs : String → List Nat → Option (List Char))
    (parse : List Char → List RawSalesRow) (bytes : List Nat) :
    (detect (bytes.take 100000) = none →
      detectedEncoding detect bytes = "utf-8") ∧
    (∀ e, detect (bytes.take 100000) = some e →
      detectedEncoding detect bytes = e) ∧
    (∀ txt, decodeAs (detectedEncoding detect bytes) bytes = some txt →
      read_csv_fallback decodeAs parse (detectedEncoding detect bytes) bytes =
        .ok (parse txt)) ∧
    (decodeAs (detectedEncoding detect bytes) bytes = none →
      read_csv_fallback decodeAs parse (detectedEncoding detect bytes) bytes =
        .ok (parse (latin1Decode bytes))) ∧
    (latin1Decode bytes).length = bytes.length ∧
    (read_csv_fallback decodeAs parse (detectedEncoding detect bytes)
      bytes).isOk = true := by
  refine ⟨?_, ?_, ?_, ?_, ?_, ?_⟩
  · intro h; rw [detectedEncoding, h]; rfl
  · intro e h; rw [detectedEncoding, h]; rfl
  · intro txt h; rw [read_csv_fallback, h]
  · intro h; rw [read_csv_fallback, h]
  · simp [latin1Decode]
  · rw [read_csv_fallback]
    cases decodeAs (detectedEncoding detect bytes) bytes <;> rfl

theorem encoding_fallback_witness :
    detectedEncoding (fun _ => none) [65] = "utf-8" ∧
    read_csv_fallback (fun _ _ => none) (fun _ => [])
      (detectedEncoding (fun _ => none) [65]) [65] =
      .ok ((fun _ : List Char => ([] : List RawSalesRow))
        (latin1Decode [65])) ∧
    (read_csv_fallback (fun _ _ => none) (fun _ => [])
      (detectedEncoding (fun _ => none) [65]) [65]).isOk = true :=
  ⟨(encoding_fallback (fun _ => none) (fun _ _ => none) (fun _ => []) [65]).1
    rfl,
   (encoding_fallback (fun _ => none) (fun _ _ => none)
    (fun _ => []) [65]).2.2.2.1 rfl,
   (encoding_fallback (fun _ => none) (fun _ _ => none)
    (fun _ => []) [65]).2.2.2.2.2⟩

/-- The three rows of the spec's C6 scenario: shared `Description`,
`Quantity = [2, -1, 5]`, `UnitPrice = [10.0, 20.0, 3.0]`. -/
def scRow1 : RawSalesRow :=
  { invoiceNo := none, customerId := none, country := none,
    description := some "WIDGET", quantity := 2, unitPrice := 10,
    invoiceDate := none }

def scRow2 : RawSalesRow := { scRow1 with quantity := -1, unitPrice := 20 }

def scRow3 : RawSalesRow := { scRow1 with quantity := 5, unitPrice := 3 }

/-- **C6**: whenever both `Quantity` and `UnitPrice` exist, the derived
`TotalSales` column is their elementwise product; on the 3-row scenario
with `Quantity = [2, -1, 5]` and `UnitPrice = [10.0, 20.0, 3.0]`,
`TotalSales = [20.0, -20.0, 15.0]` and grouping by the single shared
`Description` and summing `TotalSales` yields `15.0`. -/
theorem total_sales_derived :
    (∀ df : List RawSalesRow,
      (addTotalSales df).map (fun r => r.totalSales) =
        df.map (fun r => (r.quantity : ℚ) * r.unitPrice)) ∧
    (addTotalSales [scRow1, scRow2, scRow3]).map (fun r => r.totalSales) =
      [20, -20, 15] ∧
    top_products (addTotalSales [scRow1, scRow2, scRow3]) =
      [("WIDGET", 15)] := by
  refine ⟨?_, ?_, ?_⟩
  · intro df; simp [addTotalSales]
  · norm_num [addTotalSales, scRow1, scRow2, scRow3]
  · norm_num [top_products, salesByDescription, groupBySum, sortKeys,
      addTotalSales, scRow1, scRow2, scRow3, List.dedup, List.insertionSort,
      List.filterMap, List.orderedInsert]

/-- **C7**: the mean of the `price` column over a filtered table with
zero rows is the explicit undefined marker (pandas `NaN`, here `none`):
no exception is modelled (the reducer is total) and the result is not
`some q` for any `q`, in particular not `0`. -/
theorem mean_empty_undefined (df : List Product)
    (bf cf gf colf : List String)
    (h : df_filtered df bf cf gf colf = []) :
    seriesMean ((df_filtered df bf cf gf colf).map (fun r => r.price)) =
      none ∧
    ∀ q : ℚ,
      seriesMean ((df_filtered df bf cf gf colf).map (fun r => r.price)) ≠
        some q := by
  rw [h]
  exact ⟨rfl, fun q hq => by simp [seriesMean] at hq⟩

theorem mean_empty_undefined_witness :
    seriesMean ((df_filtered [] [] [] [] []).map (fun r => r.price)) =
      none ∧
    seriesMean ((df_filtered [] [] [] [] []).map (fun r => r.price)) ≠
      some 0 :=
  ⟨(mean_empty_undefined [] [] [] [] [] rfl).1,
   (mean_empty_undefined [] [] [] [] [] rfl).2 0⟩

/-- **C8**: both monthly aggregations — `src/main.py`'s count of products
added per month and `src/mainCSVFile.py`'s sales sum per month — return
their (year-month, value) pairs strictly ascending by month, i.e.
chronologically, not by magnitude of the value. -/
theorem monthly_sorted (dfP : List Product) (dfS : List SalesRow) :
    List.Pairwise (fun a b => a.1 < b.1) (df_time dfP) ∧
    List.Pairwise (fun a b => a.1 < b.1) (time_df dfS) :=
  ⟨groupBySize_pairwise _ dfP, groupBySum_pairwise _ _ dfS⟩

/-- **C9 counterexample**: the generator called with `n = -5` does not
reject the call — `range(-5)` is empty, so it returns the empty table
(and not a 5-row one, so the argument is not treated as an absolute
value either). -/
theorem negative_rows_counterexample :
    generateRows g0 (-5) = [] ∧ (generateRows g0 (-5)).length ≠ 5 :=
  ⟨rfl, by decide⟩

/-- **C9 amended**: calling the generator with any negative row count
returns a table of zero records (Python `range` treats a negative bound
as empty); the call is not rejected and the absolute value is not used. -/
theorem negative_rows_returns_empty (g : Rng) (n : Int) (h : n < 0) :
    generateRows g n = [] := by
  rw [generateRows, Int.toNat_of_nonpos (le_of_lt h)]
  rfl

theorem negative_rows_returns_empty_witness :
    generateRows g0 (-1) = [] :=
  negative_rows_returns_empty g0 (-1) (by decide)

/-- **C10**: the default country selection is the first five countries in
ascending sorted order of the distinct non-null `Country` values: it has
at most five entries, it is sorted, each entry occurs in the table,
every distinct country outside the default selection is strictly larger
than every selected one (so with more than five countries the rest are
excluded), and every row of the default view carries a selected
country. -/
theorem default_country_selection (df : List SalesRow) :
    (defaultCountries df).length ≤ 5 ∧
    List.Sorted (· ≤ ·) (defaultCountries df) ∧
    (∀ c, c ∈ defaultCountries df →
      ∃ r, r ∈ df ∧ r.raw.country = some c) ∧
    (∀ c, c ∈ countriesSorted df → c ∉ defaultCountries df →
      ∀ c₂, c₂ ∈ defaultCountries df → c₂ < c) ∧
    (∀ r, r ∈ defaultCountryView df →
      ∃ c, r.raw.country = some c ∧ c ∈ defaultCountries df) := by
  refine ⟨?_, ?_, ?_, ?_, ?_⟩
  · rw [defaultCountries, List.length_take]
    exact min_le_left _ _
  · exact List.Pairwise.sublist (List.take_sublist _ _)
      (sortKeys_sorted _)
  · intro c hc
    have : c ∈ countriesSorted df :=
      (List.take_sublist _ _).mem hc
    have := mem_sortKeys.1 this
    obtain ⟨r, hr, hkey⟩ := List.mem_filterMap.1 this
    exact ⟨r, hr, hkey⟩
  · intro c hc hnc c₂ hc₂
    have hsplit := (List.take_append_drop 5 (countriesSorted df)).symm
    have hsorted : List.Pairwise (· < ·)
        ((countriesSorted df).take 5 ++ (countriesSorted df).drop 5) := by
      rw [← hsplit]; exact sortKeys_sorted_lt _
    have hcross := (List.pairwise_append.1 hsorted).2.2
    have hcdrop : c ∈ (countriesSorted df).drop 5 := by
      rw [hsplit] at hc
      rcases List.mem_append.1 hc with h | h
      · exact absurd h hnc
      · exact h
    exact hcross c₂ hc₂ c hcdrop
  · intro r hr
    rw [defaultCountryView, List.mem_filter] at hr
    obtain ⟨_, hp⟩ := hr
    cases hc : r.raw.country with
    | none => rw [hc] at hp; simp at hp
    | some c =>
      rw [hc] at hp
      exact ⟨c, rfl, by simpa using hp⟩

/-- A six-country table (one row per country) used to exercise the
default-selection theorem at a concrete input. -/
def mkCountryRow (c : String) : SalesRow :=
  { raw := { scRow1 with country := some c }, totalSales := 0 }

def df6 : List SalesRow :=
  [mkCountryRow "F", mkCountryRow "E", mkCountryRow "D",
   mkCountryRow "C", mkCountryRow "B", mkCountryRow "A"]

theorem sortedAtoF :
    List.Sorted (· ≤ ·) (["A", "B", "C", "D", "E", "F"] : List String) :=
  List.chain'_iff_pairwise.mp (by
    show List.Chain (· ≤ ·) "A" ["B", "C", "D", "E", "F"]
    refine .cons ?_ (.cons ?_ (.cons ?_ (.cons ?_ (.cons ?_ .nil)))) <;>
      exact String.le_iff_toList_le.mpr (by decide))

theorem df6_countries :
    countriesSorted df6 = ["A", "B", "C", "D", "E", "F"] := by
  have hperm : List.Perm (countriesSorted df6)
      ["A", "B", "C", "D", "E", "F"] := by
    refine (List.perm_insertionSort _ _).trans ?_
    rw [show df6.filterMap (fun r => r.raw.country) =
      ["F", "E", "D", "C", "B", "A"] from rfl]
    rw [List.dedup_eq_self.2
      (by decide : (["F", "E", "D", "C", "B", "A"] : List String).Nodup)]
    decide
  exact List.eq_of_perm_of_sorted hperm (sortKeys_sorted _) sortedAtoF

theorem default_country_selection_witness :
    (defaultCountries df6).length ≤ 5 ∧ ("A" : String) < "F" := by
  have hd : defaultCountries df6 = ["A", "B", "C", "D", "E"] := by
    rw [defaultCountries, df6_countries]
    rfl
  refine ⟨(default_country_selection df6).1,
    (default_country_selection df6).2.2.2.1 "F" ?_ ?_ "A" ?_⟩
  · rw [df6_countries]; simp
  · rw [hd]; simp
  · rw [hd]; simp

end ECom
